import Mathlib

/-!
Shallow embedding of `src/wikidatachat/rag.py`: the class
`RetreivalAugmentedGenerationPipeline` and its method `process_query`.

The pipeline composes external collaborators: an AstraDB vector store
(`self.graph_store`), a sentence embedder (`self.embedder`), the Wikidata
statement fetcher (`get_wikidata_statements_from_query`), an in-memory
nearest-neighbor retriever (built by `setup_document_stream_from_list`),
language-indexed prompt builders, a chat language model (`llm`) and
haystack's `AnswerBuilder`.  Their behaviours are modelled as pure
functions collected in an `Env` record, and every call `process_query`
makes to a collaborator is recorded in an event trace, so that the order
and the arguments of the calls are part of the model.

Scores and embedding vectors are only ever carried by the pipeline, never
computed on, so they are modelled by `Int` and `List Int`.
-/

namespace WikidataChat

/-- Relevance scores are carried opaquely by the pipeline (copied from the
vector store into documents), never computed on. -/
abbrev Score := Int

/-- Embedding vectors are carried opaquely (extracted from the embedded query
document and passed to the retriever), never computed on. -/
abbrev Embedding := List Int

/-- A Python `dict` with string keys and string values, as used for document
metadata and for the fetched Wikidata statement dicts. -/
abbrev Dict := List (String × String)

/-- A langchain document as returned by
`AstraDBVectorStore.similarity_search_with_relevance_scores`: page content
plus a metadata dict (`r[0].page_content`, `r[0].metadata`). -/
structure LCDocument where
  page_content : String
  metadata : Dict
deriving DecidableEq, Repr

/-- A haystack `Document`: content, optional relevance score, metadata dict,
optional embedding vector.  `Document(content=...)` leaves the other fields
at their defaults. -/
structure Document where
  content : String
  score : Option Score := none
  meta : Dict := []
  embedding : Option Embedding := none
deriving DecidableEq, Repr

/-- A haystack `ChatMessage` (only the role and content are relevant). -/
structure ChatMessage where
  role : String
  content : String
deriving DecidableEq, Repr

/-- `ChatMessage.from_system`. -/
def ChatMessage.from_system (s : String) : ChatMessage := ⟨"system", s⟩

/-- `ChatMessage.from_user`. -/
def ChatMessage.from_user (s : String) : ChatMessage := ⟨"user", s⟩

/-- One chat reply returned by `llm.run(messages)["replies"]`: its text and
its metadata (`r.meta`). -/
structure Reply where
  text : String
  meta : Dict
deriving DecidableEq, Repr

/-- A haystack `GeneratedAnswer` as built by `AnswerBuilder.run`: the reply
text (`data`), the originating query, the annotated source documents and the
reply metadata. -/
structure GeneratedAnswer where
  data : String
  query : String
  documents : List Document
  meta : Dict
deriving DecidableEq, Repr

/-- The keyword arguments `process_query` passes to
`get_wikidata_statements_from_query` (`wikidata_kwargs`). -/
structure WikidataKwargs where
  timeout : Nat
  n_cores : Nat
  verbose : Bool
  api_url : String
  wikidata_base : String
  return_list : Bool
deriving DecidableEq, Repr

/-- The embedder component handle: `make_embedder` packages the embedding
model name and the device it runs on. -/
structure Embedder where
  model : String
  device : String
deriving DecidableEq, Repr

/-- `make_embedder(embedding_model=..., device=...)` from
`vector_store_interface`, as used by `__init__`: the component is identified
by its configuration. -/
def make_embedder (embedding_model device : String) : Embedder :=
  { model := embedding_model, device := device }

/-- The fields of a `RetreivalAugmentedGenerationPipeline` object set by
`__init__`: `embedding_model`, `device`, `embedder`, `graph_store`,
`logger`.  The graph store and the logger are opaque handles. -/
structure Pipeline where
  embedding_model : String
  device : String
  embedder : Embedder
  graph_store : Nat
  logger : Nat
deriving DecidableEq, Repr

/-- `RetreivalAugmentedGenerationPipeline.__init__`: stores the model name and
device and builds the embedder from them; the graph store and logger handles
come from the collaborating libraries. -/
def Pipeline.init (embedding_model device : String) (graph_store logger : Nat) :
    Pipeline :=
  { embedding_model := embedding_model, device := device,
    embedder := make_embedder embedding_model device,
    graph_store := graph_store, logger := logger }

/-- One collaborator call made by `process_query`, with the arguments it was
given. -/
inductive Event where
  /-- `self.graph_store.similarity_search_with_relevance_scores(query, k)` -/
  | similaritySearch (graph_store : Nat) (query : String) (k : Nat)
  /-- `embedder.run(docs)` on the given embedder component -/
  | embedderRun (embedder : Embedder) (docs : List Document)
  /-- `get_wikidata_statements_from_query(query, lang=..., serapi_api_key=..., **kwargs)` -/
  | fetchStatements (query lang : String) (serapi_api_key : Option String)
      (kwargs : WikidataKwargs)
  /-- `setup_document_stream_from_list(dict_list, content_key, meta_keys, embedder, embedding_similarity_function, device)` -/
  | setupDocumentStream (dict_list : List Dict) (content_key : Option String)
      (meta_keys : List String) (embedder : Embedder)
      (embedding_similarity_function : String) (device : String)
  /-- `retriever.run(query_embedding=..., top_k=...)` on the in-memory
  retriever over the given embedded corpus -/
  | retrieverRun (corpus : List Document) (query_embedding : Embedding) (top_k : Nat)
  /-- `user_prompt_builder.run(question=..., documents=...)` on the builder
  for the given language -/
  | promptBuilderRun (lang question : String) (documents : List Document)
  /-- `llm.run(messages)` -/
  | llmRun (messages : List ChatMessage)
  /-- `AnswerBuilder().run(query=..., replies=..., meta=..., documents=...)` -/
  | answerBuilderRun (query : String) (replies : List Reply)
      (documents : List Document)
deriving DecidableEq, Repr

/-- The behaviours of the external collaborators `process_query` calls, plus
the two ambient values it reads (`cpu_count()` and the `SERAPI_API_KEY`
environment variable). -/
structure Env where
  /-- behaviour of `self.graph_store.similarity_search_with_relevance_scores`:
  a list of (document, relevance score) pairs, or a raised exception -/
  similarity_search_with_relevance_scores :
    String → Nat → Except String (List (LCDocument × Score))
  /-- behaviour of `self.embedder.run`: the `"documents"` entry of its result -/
  embedder_run : List Document → List Document
  /-- behaviour of `get_wikidata_statements_from_query`
  (query, lang, serapi_api_key, kwargs) -/
  get_wikidata_statements_from_query :
    String → String → Option String → WikidataKwargs → List Dict
  /-- how `setup_document_stream_from_list` converts one statement dict into a
  document, given `content_key` and `meta_keys` -/
  doc_of_dict : Option String → List String → Dict → Document
  /-- behaviour of the in-memory retriever returned by
  `setup_document_stream_from_list`, as a function of the embedded corpus it
  was built over, the query embedding and `top_k`: the `"documents"` entry -/
  retriever_run : List Document → Embedding → Nat → List Document
  /-- the `system_prompts` dict, indexed by language -/
  system_prompts : String → String
  /-- behaviour of `user_prompt_builders[lang].run(question=..., documents=...)`:
  the rendered `"prompt"` entry -/
  user_prompt_builder_run : String → String → List Document → String
  /-- behaviour of `llm.run`: the `"replies"` entry -/
  llm_run : List ChatMessage → List Reply
  /-- `cpu_count()` -/
  cpu_count : Nat
  /-- the `SERAPI_API_KEY` environment variable -/
  serapi_api_key : Option String

/-- The body of the list comprehension at `rag.py` lines 102-108 for one
search result `r`: `Document(content=r[0].page_content, score=r[1],
meta={'qid': r[0].metadata['QID']})`.  A missing `'QID'` key raises
`KeyError`, modelled by `none`. -/
def document_of_result (r : LCDocument × Score) : Option Document :=
  (r.1.metadata.lookup "QID").map fun qid =>
    { content := r.1.page_content, score := some r.2, meta := [("qid", qid)] }

/-- The whole comprehension at lines 102-108: left to right, aborting with the
first `KeyError`. -/
def docs_of_results : List (LCDocument × Score) → Option (List Document)
  | [] => some []
  | r :: rs =>
    match document_of_result r, docs_of_results rs with
    | some d, some ds => some (d :: ds)
    | _, _ => none

/-- `rag.py` lines 98-110: `retriever_results = []`, then inside
`try`/`except` the similarity search and the comprehension.  Any exception
(a failed search, or a `KeyError` in the comprehension) is caught and printed,
leaving `retriever_results` empty. -/
def primary_retrieve (env : Env) (self : Pipeline) (query : String) (top_k : Nat) :
    List Document × List Event :=
  let ev := [Event.similaritySearch self.graph_store query top_k]
  match env.similarity_search_with_relevance_scores query top_k with
  | .error _ => ([], ev)
  | .ok results =>
    match docs_of_results results with
    | none => ([], ev)
    | some docs => (docs, ev)

/-- The default `wikidata_kwargs` built at `rag.py` lines 114-123 when the
caller passes `None`. -/
def default_wikidata_kwargs (n_cores : Nat) : WikidataKwargs :=
  { timeout := 10, n_cores := n_cores, verbose := false,
    api_url := "https://www.wikidata.org/w",
    wikidata_base := "\"wikidata.org\"", return_list := true }

/-- Modelled from the spec: `setup_document_stream_from_list` lives in
`wikidatachat.vector_store_interface`, which is absent from `src/`.  Per the
spec it "embeds the returned statements ... with a configurable embedding
model" and returns an in-memory store and a nearest-neighbor retriever "over
the freshly embedded statements": we model it by the embedded corpus the
returned retriever searches, namely the embedder's output on the converted
statement documents. -/
def setup_document_stream_from_list (env : Env) (dict_list : List Dict)
    (content_key : Option String) (meta_keys : List String) : List Document :=
  env.embedder_run (dict_list.map (env.doc_of_dict content_key meta_keys))

/-- `rag.py` lines 113-167: the fallback path taken when `retriever_results`
is empty.  Builds the default kwargs if needed, embeds the query document,
extracts its embedding (`query_embedded['documents'][0]` raises `IndexError`
on an empty list, and `list(query_embedding)` at line 161 raises `TypeError`
when the embedding is `None`; both are modelled by `none`), fetches the
Wikidata statements, sets up the document stream and runs the in-memory
retriever.  Returns the retriever results and the trace of collaborator
calls. -/
def fallback_retrieve (env : Env) (self : Pipeline) (query : String)
    (top_k : Nat) (lang : String) (content_key : Option String)
    (meta_keys : List String) (embedding_similarity_function : String)
    (wikidata_kwargs : Option WikidataKwargs) :
    Option (List Document) × List Event :=
  let kwargs := wikidata_kwargs.getD (default_wikidata_kwargs env.cpu_count)
  let query_document : Document := { content := query }
  let query_embedded := env.embedder_run [query_document]
  let ev := [Event.embedderRun self.embedder [query_document]]
  match query_embedded.head? with
  | none => (none, ev)
  | some d0 =>
    let query_embedding := d0.embedding
    let wikidata_statements :=
      env.get_wikidata_statements_from_query query lang env.serapi_api_key kwargs
    let ev := ev ++ [Event.fetchStatements query lang env.serapi_api_key kwargs]
    let corpus :=
      setup_document_stream_from_list env wikidata_statements content_key meta_keys
    let ev := ev ++
      [Event.setupDocumentStream wikidata_statements content_key meta_keys
         self.embedder embedding_similarity_function self.device,
       Event.embedderRun self.embedder
         (wikidata_statements.map (env.doc_of_dict content_key meta_keys))]
    match query_embedding with
    | none => (none, ev)
    | some qe =>
      (some (env.retriever_run corpus qe top_k),
       ev ++ [Event.retrieverRun corpus qe top_k])

/-- `rag.py` lines 98-167: the retrieval phase of `process_query`.  The
fallback runs exactly when `len(retriever_results) == 0` after the primary
attempt. -/
def retrieve (env : Env) (self : Pipeline) (query : String) (top_k : Nat)
    (lang : String) (content_key : Option String) (meta_keys : List String)
    (embedding_similarity_function : String)
    (wikidata_kwargs : Option WikidataKwargs) :
    Option (List Document) × List Event :=
  let pr := primary_retrieve env self query top_k
  if pr.1.length = 0 then
    let fb := fallback_retrieve env self query top_k lang content_key meta_keys
      embedding_similarity_function wikidata_kwargs
    (fb.1, pr.2 ++ fb.2)
  else
    (some pr.1, pr.2)

/-- Modelled from the spec: haystack's `AnswerBuilder.run` is third-party
code, absent from `src/`.  Per the spec the answer generator "extracts the
first reply as the final answer, annotated with its source documents": the
builder produces one generated answer per reply, each carrying the given
query, documents and that reply's metadata (`meta` is passed as
`[r.meta for r in response['replies']]`). -/
def answer_builder_run (query : String) (replies : List Reply)
    (meta : List Dict) (documents : List Document) : List GeneratedAnswer :=
  (replies.zip meta).map fun rm =>
    { data := rm.1.text, query := query, documents := documents, meta := rm.2 }

/-- `rag.py` lines 175-221: the generation phase.  Selects
`system_prompts[lang]` and `user_prompt_builders[lang]`, renders the user
prompt from the question and the retrieved documents, sends both messages to
the llm, builds the answers and returns `answers[0]` (`none` models the
`IndexError` when there are no replies). -/
def generate (env : Env) (query lang : String)
    (retriever_results : List Document) : Option GeneratedAnswer × List Event :=
  let system_prompt := env.system_prompts lang
  let prompt := env.user_prompt_builder_run lang query retriever_results
  let ev := [Event.promptBuilderRun lang query retriever_results]
  let messages := [ChatMessage.from_system system_prompt,
                   ChatMessage.from_user prompt]
  let replies := env.llm_run messages
  let ev := ev ++ [Event.llmRun messages]
  let answers :=
    answer_builder_run query replies (replies.map Reply.meta) retriever_results
  let ev := ev ++ [Event.answerBuilderRun query replies retriever_results]
  (answers.head?, ev)

/-- `rag.py` lines 77-221: `process_query`, as retrieval followed by
generation.  Returns the answer (`none` when an uncaught exception
propagates), the trace of collaborator calls, and the pipeline object as it
stands after the call (the method assigns to no field of `self`, so every
exit returns `self` itself). -/
def process_query (env : Env) (self : Pipeline) (query : String)
    (top_k : Nat := 10) (lang : String := "de")
    (content_key : Option String := none) (meta_keys : List String := [])
    (embedding_similarity_function : String := "cosine")
    (wikidata_kwargs : Option WikidataKwargs := none) :
    Option GeneratedAnswer × List Event × Pipeline :=
  match retrieve env self query top_k lang content_key meta_keys
      embedding_similarity_function wikidata_kwargs with
  | (none, ev) => (none, ev, self)
  | (some retriever_results, ev) =>
    let g := generate env query lang retriever_results
    (g.1, ev ++ g.2, self)

/-- The condition of `rag.py` line 113 in terms of the collaborators: the
primary similarity search raised, the comprehension raised (`KeyError`), or
the documents built from the results are empty. -/
def primary_empty_or_error (env : Env) (query : String) (top_k : Nat) : Bool :=
  match env.similarity_search_with_relevance_scores query top_k with
  | .error _ => true
  | .ok results =>
    match docs_of_results results with
    | none => true
    | some docs => docs.isEmpty

/-- Events that belong to the fallback path: statement fetching, embedding,
document-stream setup, in-memory retrieval. -/
def Event.isFallback : Event → Bool
  | .embedderRun .. => true
  | .fetchStatements .. => true
  | .setupDocumentStream .. => true
  | .retrieverRun .. => true
  | _ => false

/-- Events that are a call to the Wikidata statement fetcher. -/
def Event.isFetch : Event → Bool
  | .fetchStatements .. => true
  | _ => false

/-! ### Characterizations of the phases -/

/-- The primary attempt always records exactly the one similarity-search
call, made with the raw query string and `k = top_k`. -/
theorem primary_retrieve_snd (env : Env) (self : Pipeline) (query : String)
    (top_k : Nat) :
    (primary_retrieve env self query top_k).2 =
      [Event.similaritySearch self.graph_store query top_k] := by
  unfold primary_retrieve
  cases h : env.similarity_search_with_relevance_scores query top_k with
  | error e => simp
  | ok results => cases hd : docs_of_results results <;> simp [hd]

/-- `retriever_results` is empty after the primary attempt exactly when the
search errored, the comprehension raised, or the built list is empty. -/
theorem primary_fst_empty_iff (env : Env) (self : Pipeline) (query : String)
    (top_k : Nat) :
    (primary_retrieve env self query top_k).1 = [] ↔
      primary_empty_or_error env query top_k = true := by
  unfold primary_retrieve primary_empty_or_error
  cases h : env.similarity_search_with_relevance_scores query top_k with
  | error e => simp
  | ok results =>
    cases hd : docs_of_results results with
    | none => simp [hd]
    | some docs => simp [hd, List.isEmpty_iff]

/-- On a non-empty primary result the retrieval phase returns it and records
only the search call. -/
theorem retrieve_primary_case (env : Env) (self : Pipeline) (query : String)
    (top_k : Nat) (lang : String) (content_key : Option String)
    (meta_keys : List String) (esf : String) (wk : Option WikidataKwargs)
    (h : primary_empty_or_error env query top_k = false) :
    retrieve env self query top_k lang content_key meta_keys esf wk =
      (some (primary_retrieve env self query top_k).1,
       [Event.similaritySearch self.graph_store query top_k]) := by
  have hne : ¬ (primary_retrieve env self query top_k).1 = [] := by
    intro he
    rw [primary_fst_empty_iff] at he
    simp [he] at h
  unfold retrieve
  rw [if_neg (by simpa [List.length_eq_zero] using hne), primary_retrieve_snd]

/-- On an empty (or failed) primary result the retrieval phase returns the
fallback result, with the search call followed by the fallback calls. -/
theorem retrieve_fallback_case (env : Env) (self : Pipeline) (query : String)
    (top_k : Nat) (lang : String) (content_key : Option String)
    (meta_keys : List String) (esf : String) (wk : Option WikidataKwargs)
    (h : primary_empty_or_error env query top_k = true) :
    retrieve env self query top_k lang content_key meta_keys esf wk =
      ((fallback_retrieve env self query top_k lang content_key meta_keys esf wk).1,
       Event.similaritySearch self.graph_store query top_k ::
         (fallback_retrieve env self query top_k lang content_key meta_keys esf wk).2) := by
  have he : (primary_retrieve env self query top_k).1 = [] :=
    (primary_fst_empty_iff env self query top_k).2 h
  unfold retrieve
  rw [if_pos (by simp [he]), primary_retrieve_snd]
  simp

/-- When the embedder returns an embedded query document, the fallback path
runs to completion: it embeds the query, fetches the statements, sets up the
document stream (embedding the statements) and runs the in-memory retriever,
in this order. -/
theorem fallback_retrieve_eq (env : Env) (self : Pipeline) (query : String)
    (top_k : Nat) (lang : String) (content_key : Option String)
    (meta_keys : List String) (esf : String) (wk : Option WikidataKwargs)
    (d0 : Document) (qe : Embedding)
    (hd0 : (env.embedder_run [{ content := query }]).head? = some d0)
    (he : d0.embedding = some qe) :
    fallback_retrieve env self query top_k lang content_key meta_keys esf wk =
      (some (env.retriever_run
          (setup_document_stream_from_list env
            (env.get_wikidata_statements_from_query query lang env.serapi_api_key
              (wk.getD (default_wikidata_kwargs env.cpu_count)))
            content_key meta_keys) qe top_k),
       [Event.embedderRun self.embedder [{ content := query }],
        Event.fetchStatements query lang env.serapi_api_key
          (wk.getD (default_wikidata_kwargs env.cpu_count)),
        Event.setupDocumentStream
          (env.get_wikidata_statements_from_query query lang env.serapi_api_key
            (wk.getD (default_wikidata_kwargs env.cpu_count)))
          content_key meta_keys self.embedder esf self.device,
        Event.embedderRun self.embedder
          ((env.get_wikidata_statements_from_query query lang env.serapi_api_key
            (wk.getD (default_wikidata_kwargs env.cpu_count))).map
            (env.doc_of_dict content_key meta_keys)),
        Event.retrieverRun
          (setup_document_stream_from_list env
            (env.get_wikidata_statements_from_query query lang env.serapi_api_key
              (wk.getD (default_wikidata_kwargs env.cpu_count)))
            content_key meta_keys) qe top_k]) := by
  simp only [fallback_retrieve, hd0, he]
  rfl

/-- Every event the fallback path records is a fallback event, in every
branch (including the branches that end in an uncaught exception). -/
theorem fallback_events_isFallback (env : Env) (self : Pipeline) (query : String)
    (top_k : Nat) (lang : String) (content_key : Option String)
    (meta_keys : List String) (esf : String) (wk : Option WikidataKwargs)
    (e : Event)
    (hmem : e ∈ (fallback_retrieve env self query top_k lang content_key
      meta_keys esf wk).2) :
    e.isFallback = true := by
  simp only [fallback_retrieve] at hmem
  cases hd0 : (env.embedder_run [{ content := query }]).head? with
  | none =>
    rw [hd0] at hmem
    simp at hmem
    simp [hmem, Event.isFallback]
  | some d0 =>
    rw [hd0] at hmem
    cases he : d0.embedding with
    | none =>
      simp only [he] at hmem
      simp at hmem
      rcases hmem with h | h | h | h <;> simp [h, Event.isFallback]
    | some qe =>
      simp only [he] at hmem
      simp at hmem
      rcases hmem with h | h | h | h | h <;> simp [h, Event.isFallback]

/-- The fallback path calls the statement fetcher at most once, in every
branch. -/
theorem fallback_fetch_count (env : Env) (self : Pipeline) (query : String)
    (top_k : Nat) (lang : String) (content_key : Option String)
    (meta_keys : List String) (esf : String) (wk : Option WikidataKwargs) :
    ((fallback_retrieve env self query top_k lang content_key meta_keys esf
      wk).2.filter Event.isFetch).length ≤ 1 := by
  simp only [fallback_retrieve]
  cases hd0 : (env.embedder_run [{ content := query }]).head? with
  | none => simp [Event.isFetch]
  | some d0 =>
    cases he : d0.embedding with
    | none => simp only [he]; simp [Event.isFetch]
    | some qe => simp only [he]; simp [Event.isFetch]

/-- When the fallback path produces a document list, that list is the output
of the in-memory retriever on the freshly embedded corpus, and the retriever
call is the last event it records. -/
theorem fallback_some_eq (env : Env) (self : Pipeline) (query : String)
    (top_k : Nat) (lang : String) (content_key : Option String)
    (meta_keys : List String) (esf : String) (wk : Option WikidataKwargs)
    (docs : List Document)
    (h : (fallback_retrieve env self query top_k lang content_key meta_keys esf
      wk).1 = some docs) :
    ∃ corpus qe, docs = env.retriever_run corpus qe top_k ∧
      Event.retrieverRun corpus qe top_k ∈
        (fallback_retrieve env self query top_k lang content_key meta_keys esf
          wk).2 := by
  cases hd0 : (env.embedder_run [{ content := query }]).head? with
  | none =>
    exfalso
    simp only [fallback_retrieve, hd0] at h
    simp at h
  | some d0 =>
    cases he : d0.embedding with
    | none =>
      exfalso
      simp only [fallback_retrieve, hd0, he] at h
      simp at h
    | some qe =>
      rw [fallback_retrieve_eq env self query top_k lang content_key meta_keys
        esf wk d0 qe hd0 he] at h ⊢
      simp at h
      exact ⟨_, qe, h.symm, by simp⟩

/-- The generation phase records exactly the prompt-builder call, the llm
call and the answer-builder call, in this order, with the rendered prompt and
the selected system prompt in the llm messages. -/
theorem generate_snd (env : Env) (query lang : String) (docs : List Document) :
    (generate env query lang docs).2 =
      [Event.promptBuilderRun lang query docs,
       Event.llmRun [ChatMessage.from_system (env.system_prompts lang),
         ChatMessage.from_user (env.user_prompt_builder_run lang query docs)],
       Event.answerBuilderRun query
         (env.llm_run [ChatMessage.from_system (env.system_prompts lang),
           ChatMessage.from_user (env.user_prompt_builder_run lang query docs)])
         docs] := rfl

/-- When the llm returns at least one reply, the generation phase returns the
first reply's text as the answer, annotated with the given documents and the
first reply's metadata. -/
theorem generate_fst (env : Env) (query lang : String) (docs : List Document)
    (r : Reply) (rs : List Reply)
    (h : env.llm_run [ChatMessage.from_system (env.system_prompts lang),
      ChatMessage.from_user (env.user_prompt_builder_run lang query docs)] =
      r :: rs) :
    (generate env query lang docs).1 =
      some { data := r.text, query := query, documents := docs,
             meta := r.meta } := by
  simp only [generate]
  rw [h]
  rfl

/-- Every answer the answer builder produces is annotated with exactly the
document list it was given. -/
theorem answer_builder_documents (query : String) (replies : List Reply)
    (meta : List Dict) (documents : List Document) (a : GeneratedAnswer)
    (h : a ∈ answer_builder_run query replies meta documents) :
    a.documents = documents := by
  unfold answer_builder_run at h
  simp at h
  obtain ⟨r, m, _, rfl⟩ := h
  rfl

/-- Element-wise description of the comprehension: position `i` of the built
list is the image of position `i` of the search results. -/
theorem docs_of_results_getElem? (results : List (LCDocument × Score))
    (docs : List Document) (h : docs_of_results results = some docs) (i : Nat) :
    docs[i]? = results[i]?.bind document_of_result := by
  induction results generalizing docs i with
  | nil =>
    simp only [docs_of_results, Option.some.injEq] at h
    subst h
    simp
  | cons r rs ih =>
    simp only [docs_of_results] at h
    cases hd : document_of_result r with
    | none => rw [hd] at h; simp at h
    | some d =>
      rw [hd] at h
      cases hds : docs_of_results rs with
      | none => rw [hds] at h; simp at h
      | some ds =>
        rw [hds] at h
        simp only [Option.some.injEq] at h
        subst h
        cases i with
        | zero => simp [hd]
        | succ n => simpa using ih ds hds n

/-- The comprehension preserves the number of results. -/
theorem docs_of_results_length (results : List (LCDocument × Score))
    (docs : List Document) (h : docs_of_results results = some docs) :
    docs.length = results.length := by
  induction results generalizing docs with
  | nil => simp only [docs_of_results, Option.some.injEq] at h; subst h; rfl
  | cons r rs ih =>
    simp only [docs_of_results] at h
    cases hd : document_of_result r with
    | none => rw [hd] at h; simp at h
    | some d =>
      rw [hd] at h
      cases hds : docs_of_results rs with
      | none => rw [hds] at h; simp at h
      | some ds =>
        rw [hds] at h
        simp only [Option.some.injEq] at h
        subst h
        simp [ih ds hds]

/-- When retrieval ends in an uncaught exception, `process_query` propagates
it with the retrieval trace. -/
theorem process_query_of_retrieve_none (env : Env) (self : Pipeline)
    (query : String) (top_k : Nat) (lang : String) (content_key : Option String)
    (meta_keys : List String) (esf : String) (wk : Option WikidataKwargs)
    (ev : List Event)
    (h : retrieve env self query top_k lang content_key meta_keys esf wk =
      (none, ev)) :
    process_query env self query top_k lang content_key meta_keys esf wk =
      (none, ev, self) := by
  unfold process_query
  rw [h]

/-- When retrieval produces a document list, `process_query` is generation on
that list, its trace the retrieval trace followed by the generation trace. -/
theorem process_query_of_retrieve_some (env : Env) (self : Pipeline)
    (query : String) (top_k : Nat) (lang : String) (content_key : Option String)
    (meta_keys : List String) (esf : String) (wk : Option WikidataKwargs)
    (docs : List Document) (ev : List Event)
    (h : retrieve env self query top_k lang content_key meta_keys esf wk =
      (some docs, ev)) :
    process_query env self query top_k lang content_key meta_keys esf wk =
      ((generate env query lang docs).1,
       ev ++ (generate env query lang docs).2, self) := by
  unfold process_query
  rw [h]

/-! ### Concrete collaborators, for evaluating the model -/

/-- A concrete search result document. -/
def lcdoc1 : LCDocument :=
  { page_content := "Albert Einstein was a physicist.",
    metadata := [("QID", "Q937")] }

/-- The haystack document the comprehension builds from `(lcdoc1, 9)`. -/
def primary_doc1 : Document :=
  { content := "Albert Einstein was a physicist.", score := some 9,
    meta := [("qid", "Q937")] }

/-- A concrete environment whose vector store succeeds with one scored
result. -/
def env_primary : Env :=
  { similarity_search_with_relevance_scores := fun _ _ => .ok [(lcdoc1, 9)],
    embedder_run := fun docs =>
      docs.map fun d => { d with embedding := some [(d.content.length : Int)] },
    get_wikidata_statements_from_query := fun _ _ _ _ =>
      [[("content", "Douglas Adams is a writer.")]],
    doc_of_dict := fun content_key _ d =>
      { content := (d.lookup (content_key.getD "content")).getD "" },
    retriever_run := fun corpus _ k => corpus.take k,
    system_prompts := fun lang => "system prompt for " ++ lang,
    user_prompt_builder_run := fun lang q _ => "user prompt " ++ lang ++ " " ++ q,
    llm_run := fun _ => [{ text := "an answer", meta := [("model", "llm")] }],
    cpu_count := 4,
    serapi_api_key := some "serapi-key" }

/-- The same collaborators, but the vector store raises. -/
def env_error : Env :=
  { env_primary with
    similarity_search_with_relevance_scores := fun _ _ => .error "timeout" }

/-- The same collaborators, but the vector store returns no results. -/
def env_empty : Env :=
  { env_primary with
    similarity_search_with_relevance_scores := fun _ _ => .ok [] }

/-- A concrete pipeline object, as built by `__init__`. -/
def pipe0 : Pipeline :=
  Pipeline.init "svalabs/german-gpl-adapted-covid" "cpu" 0 0

/-- The fallback path always starts by embedding the query document, in every
branch, so its trace always contains that call. -/
theorem fallback_trace_embeds_query (env : Env) (self : Pipeline)
    (query : String) (top_k : Nat) (lang : String) (content_key : Option String)
    (meta_keys : List String) (esf : String) (wk : Option WikidataKwargs) :
    Event.embedderRun self.embedder [{ content := query }] ∈
      (fallback_retrieve env self query top_k lang content_key meta_keys esf
        wk).2 := by
  simp only [fallback_retrieve]
  cases hd0 : (env.embedder_run [{ content := query }]).head? with
  | none => simp
  | some d0 =>
    cases he : d0.embedding with
    | none => simp [he]
    | some qe => simp [he]

/-- No event of the generation phase is a fallback event. -/
theorem generate_events_not_fallback (env : Env) (query lang : String)
    (docs : List Document) (e : Event)
    (h : e ∈ (generate env query lang docs).2) : e.isFallback = false := by
  rw [generate_snd] at h
  simp at h
  rcases h with h | h | h <;> simp [h, Event.isFallback]

/-- When the primary result is empty or failed, the `process_query` trace
contains a fallback call. -/
theorem process_any_fallback_of_empty (env : Env) (self : Pipeline)
    (query : String) (top_k : Nat) (lang : String) (content_key : Option String)
    (meta_keys : List String) (esf : String) (wk : Option WikidataKwargs)
    (hp : primary_empty_or_error env query top_k = true) :
    (process_query env self query top_k lang content_key meta_keys esf
      wk).2.1.any Event.isFallback = true := by
  have hr := retrieve_fallback_case env self query top_k lang content_key
    meta_keys esf wk hp
  have hm := fallback_trace_embeds_query env self query top_k lang content_key
    meta_keys esf wk
  cases hfb : (fallback_retrieve env self query top_k lang content_key
      meta_keys esf wk).1 with
  | none =>
    rw [process_query_of_retrieve_none env self query top_k lang content_key
      meta_keys esf wk _ (by rw [hr, hfb])]
    simp only [List.any_eq_true]
    exact ⟨Event.embedderRun self.embedder [{ content := query }],
      List.mem_cons_of_mem _ hm, by simp [Event.isFallback]⟩
  | some docs =>
    rw [process_query_of_retrieve_some env self query top_k lang content_key
      meta_keys esf wk docs _ (by rw [hr, hfb])]
    simp only [List.any_eq_true]
    exact ⟨Event.embedderRun self.embedder [{ content := query }],
      List.mem_append_left _ (List.mem_cons_of_mem _ hm),
      by simp [Event.isFallback]⟩

/-- When the primary result is non-empty, the `process_query` trace contains
no fallback call. -/
theorem process_no_fallback_of_nonempty (env : Env) (self : Pipeline)
    (query : String) (top_k : Nat) (lang : String) (content_key : Option String)
    (meta_keys : List String) (esf : String) (wk : Option WikidataKwargs)
    (hp : primary_empty_or_error env query top_k = false) :
    (process_query env self query top_k lang content_key meta_keys esf
      wk).2.1.any Event.isFallback = false := by
  have hr := retrieve_primary_case env self query top_k lang content_key
    meta_keys esf wk hp
  rw [process_query_of_retrieve_some env self query top_k lang content_key
    meta_keys esf wk _ _ hr]
  simp only [List.any_eq_false]
  intro e he
  simp only [List.mem_append, List.mem_singleton] at he
  rcases he with he | he
  · simp [he, Event.isFallback]
  · simp [generate_events_not_fallback env query lang _ e he]

/-! ### The claims -/

/-- C1: For every query, the fallback retrieval path of `process_query` runs
— at least one fallback collaborator call (query/statement embedding,
statement fetching, document-stream setup, in-memory retrieval) appears in
the call trace — if and only if the primary vector-store similarity search
yields an empty result set or raises an error; when the primary search
returns at least one document, no fallback call is made. -/
theorem fallback_runs_iff_primary_empty_or_error (env : Env) (self : Pipeline)
    (query : String) (top_k : Nat) (lang : String) (content_key : Option String)
    (meta_keys : List String) (esf : String) (wk : Option WikidataKwargs) :
    ((process_query env self query top_k lang content_key meta_keys esf
        wk).2.1.any Event.isFallback = true) ↔
      primary_empty_or_error env query top_k = true := by
  by_cases hp : primary_empty_or_error env query top_k = true
  · exact iff_of_true (process_any_fallback_of_empty env self query top_k lang
      content_key meta_keys esf wk hp) hp
  · refine iff_of_false ?_ hp
    rw [process_no_fallback_of_nonempty env self query top_k lang content_key
      meta_keys esf wk (by simpa using hp)]
    exact Bool.false_ne_true

/-- C2: when the fallback path runs (empty or failed primary search) and the
embedder returns an embedded query document, `process_query` invokes the
statement fetcher, then embeds the fetched statements (inside the
document-stream setup), then runs the in-memory retriever over the freshly
embedded statements with the embedded query — in exactly this order in the
call trace — and every embedding call of the whole run uses the pipeline's
own embedder, which `__init__` builds from its configurable embedding
model. -/
theorem fallback_order_and_embedding_model (env : Env) (self : Pipeline)
    (query : String) (top_k : Nat) (lang : String) (content_key : Option String)
    (meta_keys : List String) (esf : String) (wk : Option WikidataKwargs)
    (d0 : Document) (qe : Embedding)
    (hp : primary_empty_or_error env query top_k = true)
    (hd0 : (env.embedder_run [{ content := query }]).head? = some d0)
    (he : d0.embedding = some qe)
    (hemb : self.embedder = make_embedder self.embedding_model self.device) :
    (process_query env self query top_k lang content_key meta_keys esf
        wk).2.1 =
      [Event.similaritySearch self.graph_store query top_k,
       Event.embedderRun self.embedder [{ content := query }],
       Event.fetchStatements query lang env.serapi_api_key
         (wk.getD (default_wikidata_kwargs env.cpu_count)),
       Event.setupDocumentStream
         (env.get_wikidata_statements_from_query query lang env.serapi_api_key
           (wk.getD (default_wikidata_kwargs env.cpu_count)))
         content_key meta_keys self.embedder esf self.device,
       Event.embedderRun self.embedder
         ((env.get_wikidata_statements_from_query query lang env.serapi_api_key
           (wk.getD (default_wikidata_kwargs env.cpu_count))).map
           (env.doc_of_dict content_key meta_keys)),
       Event.retrieverRun
         (setup_document_stream_from_list env
           (env.get_wikidata_statements_from_query query lang env.serapi_api_key
             (wk.getD (default_wikidata_kwargs env.cpu_count)))
           content_key meta_keys) qe top_k,
       Event.promptBuilderRun lang query
         (env.retriever_run
           (setup_document_stream_from_list env
             (env.get_wikidata_statements_from_query query lang env.serapi_api_key
               (wk.getD (default_wikidata_kwargs env.cpu_count)))
             content_key meta_keys) qe top_k),
       Event.llmRun
         [ChatMessage.from_system (env.system_prompts lang),
          ChatMessage.from_user (env.user_prompt_builder_run lang query
            (env.retriever_run
              (setup_document_stream_from_list env
                (env.get_wikidata_statements_from_query query lang
                  env.serapi_api_key
                  (wk.getD (default_wikidata_kwargs env.cpu_count)))
                content_key meta_keys) qe top_k))],
       Event.answerBuilderRun query
         (env.llm_run
           [ChatMessage.from_system (env.system_prompts lang),
            ChatMessage.from_user (env.user_prompt_builder_run lang query
              (env.retriever_run
                (setup_document_stream_from_list env
                  (env.get_wikidata_statements_from_query query lang
                    env.serapi_api_key
                    (wk.getD (default_wikidata_kwargs env.cpu_count)))
                  content_key meta_keys) qe top_k))])
         (env.retriever_run
           (setup_document_stream_from_list env
             (env.get_wikidata_statements_from_query query lang env.serapi_api_key
               (wk.getD (default_wikidata_kwargs env.cpu_count)))
             content_key meta_keys) qe top_k)] ∧
    ∀ emb ds, Event.embedderRun emb ds ∈
        (process_query env self query top_k lang content_key meta_keys esf
          wk).2.1 →
      emb = self.embedder ∧ emb.model = self.embedding_model := by
  have hr := retrieve_fallback_case env self query top_k lang content_key
    meta_keys esf wk hp
  have hfb := fallback_retrieve_eq env self query top_k lang content_key
    meta_keys esf wk d0 qe hd0 he
  rw [hfb] at hr
  have hpq := process_query_of_retrieve_some env self query top_k lang
    content_key meta_keys esf wk _ _ hr
  rw [hpq, generate_snd]
  constructor
  · simp
  · intro emb ds hmem
    simp only [List.cons_append, List.nil_append, List.mem_cons,
      List.not_mem_nil, or_false] at hmem
    have hembm : emb = self.embedder := by
      rcases hmem with h | h | h | h | h | h | h | h | h <;> simp_all
    exact ⟨hembm, by rw [hembm, hemb]; rfl⟩

/-- Every event in the retrieval phase's trace is the similarity-search call
or a fallback call — never a prompt, llm or answer-builder call. -/
theorem retrieve_events_shape (env : Env) (self : Pipeline) (query : String)
    (top_k : Nat) (lang : String) (content_key : Option String)
    (meta_keys : List String) (esf : String) (wk : Option WikidataKwargs)
    (e : Event)
    (he : e ∈ (retrieve env self query top_k lang content_key meta_keys esf
      wk).2) :
    e = Event.similaritySearch self.graph_store query top_k ∨
      e.isFallback = true := by
  by_cases hp : primary_empty_or_error env query top_k = true
  · rw [retrieve_fallback_case env self query top_k lang content_key meta_keys
      esf wk hp] at he
    simp only [List.mem_cons] at he
    rcases he with he | he
    · exact Or.inl he
    · exact Or.inr (fallback_events_isFallback env self query top_k lang
        content_key meta_keys esf wk e he)
  · rw [retrieve_primary_case env self query top_k lang content_key meta_keys
      esf wk (by simpa using hp)] at he
    simp at he
    exact Or.inl he

/-- C3: when the primary similarity search succeeds and the documents are
built without error, the primary attempt returns them having recorded the
search on the raw query string with `k = top_k`; each built document copies
the store document's content, carries the store's relevance score, and is
tagged `qid` in its metadata with the store document's `QID`; and when the
result is non-empty this document list is what the retrieval phase hands
on. -/
theorem primary_docs_scored_and_tagged (env : Env) (self : Pipeline)
    (query : String) (top_k : Nat) (lang : String) (content_key : Option String)
    (meta_keys : List String) (esf : String) (wk : Option WikidataKwargs)
    (results : List (LCDocument × Score)) (docs : List Document)
    (hok : env.similarity_search_with_relevance_scores query top_k =
      Except.ok results)
    (hdocs : docs_of_results results = some docs) :
    primary_retrieve env self query top_k =
      (docs, [Event.similaritySearch self.graph_store query top_k]) ∧
    (∀ (i : Nat) (d : Document) (r : LCDocument × Score),
      docs[i]? = some d → results[i]? = some r →
      d.content = r.1.page_content ∧ d.score = some r.2 ∧
      ∃ qid, r.1.metadata.lookup "QID" = some qid ∧ d.meta = [("qid", qid)]) ∧
    (docs ≠ [] →
      retrieve env self query top_k lang content_key meta_keys esf wk =
        (some docs, [Event.similaritySearch self.graph_store query top_k])) := by
  have hpr : primary_retrieve env self query top_k =
      (docs, [Event.similaritySearch self.graph_store query top_k]) := by
    simp only [primary_retrieve, hok, hdocs]
  refine ⟨hpr, ?_, ?_⟩
  · intro i d r hd hr
    have hgi := docs_of_results_getElem? results docs hdocs i
    rw [hd, hr] at hgi
    simp only [Option.some_bind] at hgi
    unfold document_of_result at hgi
    cases hq : r.1.metadata.lookup "QID" with
    | none => rw [hq] at hgi; simp at hgi
    | some qid =>
      rw [hq] at hgi
      simp only [Option.map_some', Option.some.injEq] at hgi
      subst hgi
      exact ⟨rfl, rfl, qid, rfl, rfl⟩
  · intro hne
    have hp : primary_empty_or_error env query top_k = false := by
      unfold primary_empty_or_error
      simp only [hok, hdocs]
      simpa [List.isEmpty_iff] using hne
    rw [retrieve_primary_case env self query top_k lang content_key meta_keys
      esf wk hp, hpr]

/-- C4: whenever the retrieval phase yields a document list and the language
model returns at least one reply, `process_query` sends the rendered prompt
(together with the language's system prompt) to the model and returns the
first reply as the final answer, annotated with the retrieved source
documents. -/
theorem first_reply_is_final_answer (env : Env) (self : Pipeline)
    (query : String) (top_k : Nat) (lang : String) (content_key : Option String)
    (meta_keys : List String) (esf : String) (wk : Option WikidataKwargs)
    (docs : List Document) (ev : List Event) (r : Reply) (rs : List Reply)
    (hret : retrieve env self query top_k lang content_key meta_keys esf wk =
      (some docs, ev))
    (hllm : env.llm_run [ChatMessage.from_system (env.system_prompts lang),
        ChatMessage.from_user (env.user_prompt_builder_run lang query docs)] =
      r :: rs) :
    (process_query env self query top_k lang content_key meta_keys esf
        wk).1 =
      some { data := r.text, query := query, documents := docs,
             meta := r.meta } ∧
    Event.llmRun [ChatMessage.from_system (env.system_prompts lang),
        ChatMessage.from_user (env.user_prompt_builder_run lang query docs)] ∈
      (process_query env self query top_k lang content_key meta_keys esf
        wk).2.1 := by
  rw [process_query_of_retrieve_some env self query top_k lang content_key
    meta_keys esf wk docs ev hret]
  constructor
  · exact generate_fst env query lang docs r rs hllm
  · rw [generate_snd]
    simp

/-- C5: for every query and language code, prompt construction selects the
system prompt for that language and renders the user prompt from exactly the
question and the retrieved documents: the trace's only prompt-builder call
has arguments `(lang, query, docs)` and the llm receives the system prompt
for `lang` followed by the rendered user prompt. -/
theorem prompt_from_language_question_and_docs (env : Env) (self : Pipeline)
    (query : String) (top_k : Nat) (lang : String) (content_key : Option String)
    (meta_keys : List String) (esf : String) (wk : Option WikidataKwargs)
    (docs : List Document) (ev : List Event)
    (hret : retrieve env self query top_k lang content_key meta_keys esf wk =
      (some docs, ev)) :
    Event.promptBuilderRun lang query docs ∈
      (process_query env self query top_k lang content_key meta_keys esf
        wk).2.1 ∧
    Event.llmRun [ChatMessage.from_system (env.system_prompts lang),
        ChatMessage.from_user (env.user_prompt_builder_run lang query docs)] ∈
      (process_query env self query top_k lang content_key meta_keys esf
        wk).2.1 ∧
    ∀ l q ds, Event.promptBuilderRun l q ds ∈
        (process_query env self query top_k lang content_key meta_keys esf
          wk).2.1 →
      l = lang ∧ q = query ∧ ds = docs := by
  rw [process_query_of_retrieve_some env self query top_k lang content_key
    meta_keys esf wk docs ev hret, generate_snd]
  refine ⟨by simp, by simp, ?_⟩
  intro l q ds hmem
  simp only [List.mem_append, List.mem_cons, List.not_mem_nil, or_false]
    at hmem
  rcases hmem with hmem | hmem | hmem | hmem
  · exfalso
    have := retrieve_events_shape env self query top_k lang content_key
      meta_keys esf wk _ (by rw [hret]; exact hmem)
    rcases this with h | h
    · exact Event.noConfusion h
    · simp [Event.isFallback] at h
  · injection hmem with h1 h2 h3
    exact ⟨h1, h2, h3⟩
  · exact Event.noConfusion hmem
  · exact Event.noConfusion hmem

/-- No event of the generation phase is a statement-fetcher call. -/
theorem generate_events_not_fetch (env : Env) (query lang : String)
    (docs : List Document) (e : Event)
    (h : e ∈ (generate env query lang docs).2) : e.isFetch = false := by
  rw [generate_snd] at h
  simp at h
  rcases h with h | h | h <;> simp [h, Event.isFetch]

/-- Any prompt-builder event in a successful `process_query` trace carries
the call's language, the raw query and the retrieved document list. -/
theorem prompt_event_args (env : Env) (self : Pipeline) (query : String)
    (top_k : Nat) (lang : String) (content_key : Option String)
    (meta_keys : List String) (esf : String) (wk : Option WikidataKwargs)
    (docs : List Document) (ev : List Event) (l q : String)
    (ds : List Document)
    (hret : retrieve env self query top_k lang content_key meta_keys esf wk =
      (some docs, ev))
    (hmem : Event.promptBuilderRun l q ds ∈
      (process_query env self query top_k lang content_key meta_keys esf
        wk).2.1) :
    l = lang ∧ q = query ∧ ds = docs := by
  rw [process_query_of_retrieve_some env self query top_k lang content_key
    meta_keys esf wk docs ev hret, generate_snd] at hmem
  simp only [List.mem_append, List.mem_cons, List.not_mem_nil, or_false]
    at hmem
  rcases hmem with hmem | hmem | hmem | hmem
  · exfalso
    have := retrieve_events_shape env self query top_k lang content_key
      meta_keys esf wk _ (by rw [hret]; exact hmem)
    rcases this with h | h
    · exact Event.noConfusion h
    · simp [Event.isFallback] at h
  · injection hmem with h1 h2 h3
    exact ⟨h1, h2, h3⟩
  · exact Event.noConfusion hmem
  · exact Event.noConfusion hmem

/-- When retrieval ends in an uncaught exception, no prompt-builder call is
ever made. -/
theorem no_prompt_of_retrieve_none (env : Env) (self : Pipeline)
    (query : String) (top_k : Nat) (lang : String) (content_key : Option String)
    (meta_keys : List String) (esf : String) (wk : Option WikidataKwargs)
    (ev : List Event) (l q : String) (ds : List Document)
    (hret : retrieve env self query top_k lang content_key meta_keys esf wk =
      (none, ev))
    (hmem : Event.promptBuilderRun l q ds ∈
      (process_query env self query top_k lang content_key meta_keys esf
        wk).2.1) :
    False := by
  rw [process_query_of_retrieve_none env self query top_k lang content_key
    meta_keys esf wk ev hret] at hmem
  have := retrieve_events_shape env self query top_k lang content_key
    meta_keys esf wk _ (by rw [hret]; exact hmem)
  rcases this with h | h
  · exact Event.noConfusion h
  · simp [Event.isFallback] at h

/-- When the fallback path completes, its trace contains exactly one
statement-fetcher call. -/
theorem fallback_some_fetch_count (env : Env) (self : Pipeline)
    (query : String) (top_k : Nat) (lang : String) (content_key : Option String)
    (meta_keys : List String) (esf : String) (wk : Option WikidataKwargs)
    (docs : List Document)
    (h : (fallback_retrieve env self query top_k lang content_key meta_keys esf
      wk).1 = some docs) :
    ((fallback_retrieve env self query top_k lang content_key meta_keys esf
      wk).2.filter Event.isFetch).length = 1 := by
  cases hd0 : (env.embedder_run [{ content := query }]).head? with
  | none =>
    exfalso
    simp only [fallback_retrieve, hd0] at h
    simp at h
  | some d0 =>
    cases he : d0.embedding with
    | none =>
      exfalso
      simp only [fallback_retrieve, hd0, he] at h
      simp at h
    | some qe =>
      rw [fallback_retrieve_eq env self query top_k lang content_key meta_keys
        esf wk d0 qe hd0 he]
      simp [Event.isFetch]

/-- C6: for every call to `process_query` exactly one retrieval path supplies
the prompt documents: the statement fetcher is called at most once, and any
document list handed to the prompt builder is either the primary result
(primary search non-empty, no fallback call in the trace) or the output of
the in-memory fallback retriever (primary empty or failed, exactly one fetch
call) — the two paths' documents are never mixed and the fallback never runs
twice. -/
theorem exactly_one_retrieval_path (env : Env) (self : Pipeline)
    (query : String) (top_k : Nat) (lang : String) (content_key : Option String)
    (meta_keys : List String) (esf : String) (wk : Option WikidataKwargs) :
    (((process_query env self query top_k lang content_key meta_keys esf
        wk).2.1.filter Event.isFetch).length ≤ 1) ∧
    ∀ ds, Event.promptBuilderRun lang query ds ∈
        (process_query env self query top_k lang content_key meta_keys esf
          wk).2.1 →
      (primary_empty_or_error env query top_k = false ∧
        ds = (primary_retrieve env self query top_k).1 ∧
        (process_query env self query top_k lang content_key meta_keys esf
          wk).2.1.any Event.isFallback = false) ∨
      (primary_empty_or_error env query top_k = true ∧
        ((process_query env self query top_k lang content_key meta_keys esf
          wk).2.1.filter Event.isFetch).length = 1 ∧
        ∃ corpus qe, Event.retrieverRun corpus qe top_k ∈
            (process_query env self query top_k lang content_key meta_keys esf
              wk).2.1 ∧
          ds = env.retriever_run corpus qe top_k) := by
  by_cases hp : primary_empty_or_error env query top_k = true
  · have hr := retrieve_fallback_case env self query top_k lang content_key
      meta_keys esf wk hp
    cases hfb : (fallback_retrieve env self query top_k lang content_key
        meta_keys esf wk).1 with
    | none =>
      have hpq := process_query_of_retrieve_none env self query top_k lang
        content_key meta_keys esf wk _ (by rw [hr, hfb])
      constructor
      · rw [hpq]
        have hc := fallback_fetch_count env self query top_k lang content_key
          meta_keys esf wk
        simpa [Event.isFetch] using hc
      · intro ds hmem
        exact absurd hmem (fun hm => no_prompt_of_retrieve_none env self query
          top_k lang content_key meta_keys esf wk _ lang query ds
          (by rw [hr, hfb]) hm)
    | some docs =>
      have hret : retrieve env self query top_k lang content_key meta_keys esf
          wk = (some docs,
            Event.similaritySearch self.graph_store query top_k ::
              (fallback_retrieve env self query top_k lang content_key
                meta_keys esf wk).2) := by
        rw [hr, hfb]
      have hpq := process_query_of_retrieve_some env self query top_k lang
        content_key meta_keys esf wk _ _ hret
      have hcount : ((process_query env self query top_k lang content_key
          meta_keys esf wk).2.1.filter Event.isFetch).length = 1 := by
        rw [hpq, List.filter_append]
        have h1 := fallback_some_fetch_count env self query top_k lang
          content_key meta_keys esf wk docs hfb
        have h2 : ((generate env query lang docs).2.filter
            Event.isFetch).length = 0 := by
          rw [generate_snd]
          simp [Event.isFetch]
        simpa [Event.isFetch, h2] using h1
      refine ⟨le_of_eq hcount, ?_⟩
      intro ds hmem
      right
      refine ⟨hp, hcount, ?_⟩
      obtain ⟨-, -, hds⟩ := prompt_event_args env self query top_k lang
        content_key meta_keys esf wk docs _ lang query ds hret hmem
      obtain ⟨corpus, qe, hdeq, hmemr⟩ := fallback_some_eq env self query top_k
        lang content_key meta_keys esf wk docs hfb
      refine ⟨corpus, qe, ?_, hds ▸ hdeq⟩
      rw [hpq]
      exact List.mem_append_left _ (List.mem_cons_of_mem _ hmemr)
  · have hpf : primary_empty_or_error env query top_k = false := by
      simpa using hp
    have hr := retrieve_primary_case env self query top_k lang content_key
      meta_keys esf wk hpf
    have hpq := process_query_of_retrieve_some env self query top_k lang
      content_key meta_keys esf wk _ _ hr
    constructor
    · rw [hpq, List.filter_append, generate_snd]
      simp [Event.isFetch]
    · intro ds hmem
      left
      obtain ⟨-, -, hds⟩ := prompt_event_args env self query top_k lang
        content_key meta_keys esf wk _ _ lang query ds hr hmem
      exact ⟨hpf, hds, process_no_fallback_of_nonempty env self query top_k
        lang content_key meta_keys esf wk hpf⟩

/-- C7: `process_query` leaves the pipeline object's state unchanged: the
returned pipeline is the one passed in, so in particular its
`embedding_model`, `device`, `embedder`, `graph_store` and `logger` fields
are the same after the call as before it. -/
theorem process_query_preserves_pipeline (env : Env) (self : Pipeline)
    (query : String) (top_k : Nat) (lang : String) (content_key : Option String)
    (meta_keys : List String) (esf : String) (wk : Option WikidataKwargs) :
    (process_query env self query top_k lang content_key meta_keys esf
        wk).2.2 = self ∧
    (process_query env self query top_k lang content_key meta_keys esf
        wk).2.2.embedding_model = self.embedding_model ∧
    (process_query env self query top_k lang content_key meta_keys esf
        wk).2.2.device = self.device ∧
    (process_query env self query top_k lang content_key meta_keys esf
        wk).2.2.embedder = self.embedder ∧
    (process_query env self query top_k lang content_key meta_keys esf
        wk).2.2.graph_store = self.graph_store ∧
    (process_query env self query top_k lang content_key meta_keys esf
        wk).2.2.logger = self.logger := by
  unfold process_query
  rcases retrieve env self query top_k lang content_key meta_keys esf wk with
    ⟨_ | docs, ev⟩ <;> exact ⟨rfl, rfl, rfl, rfl, rfl, rfl⟩

/-- C8: an error raised by the primary vector-store similarity search never
propagates out of `process_query`: the exception is caught, the retriever
result list stays empty, the whole call behaves exactly as if the store had
returned no results, and execution continues into the fallback path. -/
theorem primary_error_caught (env : Env) (self : Pipeline) (query : String)
    (top_k : Nat) (lang : String) (content_key : Option String)
    (meta_keys : List String) (esf : String) (wk : Option WikidataKwargs)
    (e : String)
    (herr : env.similarity_search_with_relevance_scores query top_k =
      Except.error e) :
    (primary_retrieve env self query top_k).1 = [] ∧
    process_query env self query top_k lang content_key meta_keys esf wk =
      process_query
        { env with similarity_search_with_relevance_scores :=
            fun _ _ => Except.ok [] }
        self query top_k lang content_key meta_keys esf wk ∧
    (process_query env self query top_k lang content_key meta_keys esf
      wk).2.1.any Event.isFallback = true := by
  have hp : primary_empty_or_error env query top_k = true := by
    unfold primary_empty_or_error
    simp [herr]
  have h1 : (primary_retrieve env self query top_k).1 = [] :=
    (primary_fst_empty_iff env self query top_k).2 hp
  refine ⟨h1, ?_, process_any_fallback_of_empty env self query top_k lang
    content_key meta_keys esf wk hp⟩
  unfold process_query retrieve
  simp only [primary_retrieve, herr]
  rfl

/-- The answer the generation phase returns is annotated with exactly the
document list it was given. -/
theorem generate_answer_documents (env : Env) (query lang : String)
    (docs : List Document) (a : GeneratedAnswer)
    (h : (generate env query lang docs).1 = some a) : a.documents = docs := by
  simp only [generate] at h
  exact answer_builder_documents query _ _ docs a (List.mem_of_mem_head? h)

/-- Any answer-builder event in a successful `process_query` trace carries
the raw query and the retrieved document list. -/
theorem answer_event_args (env : Env) (self : Pipeline) (query : String)
    (top_k : Nat) (lang : String) (content_key : Option String)
    (meta_keys : List String) (esf : String) (wk : Option WikidataKwargs)
    (docs : List Document) (ev : List Event) (q : String) (reps : List Reply)
    (ds : List Document)
    (hret : retrieve env self query top_k lang content_key meta_keys esf wk =
      (some docs, ev))
    (hmem : Event.answerBuilderRun q reps ds ∈
      (process_query env self query top_k lang content_key meta_keys esf
        wk).2.1) :
    q = query ∧ ds = docs := by
  rw [process_query_of_retrieve_some env self query top_k lang content_key
    meta_keys esf wk docs ev hret, generate_snd] at hmem
  simp only [List.mem_append, List.mem_cons, List.not_mem_nil, or_false]
    at hmem
  rcases hmem with hmem | hmem | hmem | hmem
  · exfalso
    have := retrieve_events_shape env self query top_k lang content_key
      meta_keys esf wk _ (by rw [hret]; exact hmem)
    rcases this with h | h
    · exact Event.noConfusion h
    · simp [Event.isFallback] at h
  · exact Event.noConfusion hmem
  · exact Event.noConfusion hmem
  · injection hmem with h1 h2 h3
    exact ⟨h1, h3⟩

/-- C9: the document list passed to the answer builder for annotating the
returned answer is exactly the list of retriever results used to render the
user prompt: the returned answer's source documents, every answer-builder
call's documents and every prompt-builder call's documents all equal the
retrieved list. -/
theorem answer_docs_eq_prompt_docs (env : Env) (self : Pipeline)
    (query : String) (top_k : Nat) (lang : String) (content_key : Option String)
    (meta_keys : List String) (esf : String) (wk : Option WikidataKwargs)
    (docs : List Document) (ev : List Event) (ans : GeneratedAnswer)
    (hret : retrieve env self query top_k lang content_key meta_keys esf wk =
      (some docs, ev))
    (hans : (process_query env self query top_k lang content_key meta_keys esf
      wk).1 = some ans) :
    ans.documents = docs ∧
    (∀ ds, Event.promptBuilderRun lang query ds ∈
        (process_query env self query top_k lang content_key meta_keys esf
          wk).2.1 → ds = docs) ∧
    (∀ q reps ds, Event.answerBuilderRun q reps ds ∈
        (process_query env self query top_k lang content_key meta_keys esf
          wk).2.1 → ds = docs) := by
  refine ⟨?_, ?_, ?_⟩
  · rw [process_query_of_retrieve_some env self query top_k lang content_key
      meta_keys esf wk docs ev hret] at hans
    exact generate_answer_documents env query lang docs ans hans
  · intro ds hmem
    exact (prompt_event_args env self query top_k lang content_key meta_keys
      esf wk docs ev lang query ds hret hmem).2.2
  · intro q reps ds hmem
    exact (answer_event_args env self query top_k lang content_key meta_keys
      esf wk docs ev q reps ds hret hmem).2

/-- Every in-memory-retriever call in the fallback trace is made with the
call's own `top_k`. -/
theorem fallback_retrieverRun_top_k (env : Env) (self : Pipeline)
    (query : String) (top_k : Nat) (lang : String) (content_key : Option String)
    (meta_keys : List String) (esf : String) (wk : Option WikidataKwargs)
    (corpus : List Document) (qe : Embedding) (k : Nat)
    (hmem : Event.retrieverRun corpus qe k ∈
      (fallback_retrieve env self query top_k lang content_key meta_keys esf
        wk).2) :
    k = top_k := by
  cases hd0 : (env.embedder_run [{ content := query }]).head? with
  | none =>
    simp only [fallback_retrieve, hd0] at hmem
    simp at hmem
  | some d0 =>
    cases he : d0.embedding with
    | none =>
      simp only [fallback_retrieve, hd0, he] at hmem
      simp at hmem
    | some qe' =>
      rw [fallback_retrieve_eq env self query top_k lang content_key meta_keys
        esf wk d0 qe' hd0 he] at hmem
      simp only [List.mem_cons, List.not_mem_nil, or_false] at hmem
      rcases hmem with h | h | h | h | h
      · exact Event.noConfusion h
      · exact Event.noConfusion h
      · exact Event.noConfusion h
      · exact Event.noConfusion h
      · injection h with h1 h2 h3
        try exact h3

/-- Every similarity-search call in a `process_query` trace queries the
pipeline's graph store with the raw query and `k = top_k`. -/
theorem search_event_args (env : Env) (self : Pipeline) (query : String)
    (top_k : Nat) (lang : String) (content_key : Option String)
    (meta_keys : List String) (esf : String) (wk : Option WikidataKwargs)
    (gs : Nat) (q : String) (k : Nat)
    (hmem : Event.similaritySearch gs q k ∈
      (process_query env self query top_k lang content_key meta_keys esf
        wk).2.1) :
    gs = self.graph_store ∧ q = query ∧ k = top_k := by
  have hshape : ∀ e, e ∈ (retrieve env self query top_k lang content_key
      meta_keys esf wk).2 → e = Event.similaritySearch gs q k →
      gs = self.graph_store ∧ q = query ∧ k = top_k := by
    intro e hel heq
    subst heq
    rcases retrieve_events_shape env self query top_k lang content_key
      meta_keys esf wk _ hel with h | h
    · injection h with h1 h2 h3
      exact ⟨h1, h2, h3⟩
    · simp [Event.isFallback] at h
  rcases hret : retrieve env self query top_k lang content_key meta_keys esf
    wk with ⟨_ | docs, ev⟩
  · rw [process_query_of_retrieve_none env self query top_k lang content_key
      meta_keys esf wk ev hret] at hmem
    exact hshape _ (by rw [hret]; exact hmem) rfl
  · rw [process_query_of_retrieve_some env self query top_k lang content_key
      meta_keys esf wk docs ev hret, generate_snd] at hmem
    simp only [List.mem_append, List.mem_cons, List.not_mem_nil, or_false]
      at hmem
    rcases hmem with h | h | h | h
    · exact hshape _ (by rw [hret]; exact h) rfl
    · exact Event.noConfusion h
    · exact Event.noConfusion h
    · exact Event.noConfusion h

/-- Every in-memory-retriever call in a `process_query` trace is made with
`top_k`. -/
theorem retrieverRun_event_top_k (env : Env) (self : Pipeline) (query : String)
    (top_k : Nat) (lang : String) (content_key : Option String)
    (meta_keys : List String) (esf : String) (wk : Option WikidataKwargs)
    (corpus : List Document) (qe : Embedding) (k : Nat)
    (hmem : Event.retrieverRun corpus qe k ∈
      (process_query env self query top_k lang content_key meta_keys esf
        wk).2.1) :
    k = top_k := by
  have hretr : ∀ e, e ∈ (retrieve env self query top_k lang content_key
      meta_keys esf wk).2 → e = Event.retrieverRun corpus qe k →
      k = top_k := by
    intro e hel heq
    subst heq
    by_cases hp : primary_empty_or_error env query top_k = true
    · rw [retrieve_fallback_case env self query top_k lang content_key
        meta_keys esf wk hp] at hel
      simp only [List.mem_cons] at hel
      rcases hel with h | h
      · exact Event.noConfusion h
      · exact fallback_retrieverRun_top_k env self query top_k lang content_key
          meta_keys esf wk corpus qe k h
    · rw [retrieve_primary_case env self query top_k lang content_key
        meta_keys esf wk (by simpa using hp)] at hel
      simp at hel
  rcases hret : retrieve env self query top_k lang content_key meta_keys esf
    wk with ⟨_ | docs, ev⟩
  · rw [process_query_of_retrieve_none env self query top_k lang content_key
      meta_keys esf wk ev hret] at hmem
    exact hretr _ (by rw [hret]; exact hmem) rfl
  · rw [process_query_of_retrieve_some env self query top_k lang content_key
      meta_keys esf wk docs ev hret, generate_snd] at hmem
    simp only [List.mem_append, List.mem_cons, List.not_mem_nil, or_false]
      at hmem
    rcases hmem with h | h | h | h
    · exact hretr _ (by rw [hret]; exact h) rfl
    · exact Event.noConfusion h
    · exact Event.noConfusion h
    · exact Event.noConfusion h

/-- When the vector store honors its `k` bound and the in-memory retriever
honors its `top_k` bound, any document list the retrieval phase yields has at
most `top_k` documents. -/
theorem retrieve_some_length_le (env : Env) (self : Pipeline) (query : String)
    (top_k : Nat) (lang : String) (content_key : Option String)
    (meta_keys : List String) (esf : String) (wk : Option WikidataKwargs)
    (docs : List Document) (ev : List Event)
    (hs : ∀ rs, env.similarity_search_with_relevance_scores query top_k =
      Except.ok rs → rs.length ≤ top_k)
    (hr : ∀ corpus qe, (env.retriever_run corpus qe top_k).length ≤ top_k)
    (hret : retrieve env self query top_k lang content_key meta_keys esf wk =
      (some docs, ev)) :
    docs.length ≤ top_k := by
  by_cases hp : primary_empty_or_error env query top_k = true
  · rw [retrieve_fallback_case env self query top_k lang content_key meta_keys
      esf wk hp] at hret
    injection hret with h1 h2
    obtain ⟨corpus, qe, hdeq, -⟩ := fallback_some_eq env self query top_k lang
      content_key meta_keys esf wk docs h1
    rw [hdeq]
    exact hr corpus qe
  · have hpf : primary_empty_or_error env query top_k = false := by
      simpa using hp
    rw [retrieve_primary_case env self query top_k lang content_key meta_keys
      esf wk hpf] at hret
    injection hret with h1 h2
    have hdocs : docs = (primary_retrieve env self query top_k).1 := by
      injection h1 with h3
      exact h3.symm
    rcases hok : env.similarity_search_with_relevance_scores query top_k with
      e | results
    · exfalso
      unfold primary_empty_or_error at hpf
      simp only [hok] at hpf
      simp at hpf
    · rcases hdr : docs_of_results results with _ | pdocs
      · exfalso
        unfold primary_empty_or_error at hpf
        simp only [hok, hdr] at hpf
        simp at hpf
      · have hpr : (primary_retrieve env self query top_k).1 = pdocs := by
          simp only [primary_retrieve, hok, hdr]
        rw [hdocs, hpr, docs_of_results_length results pdocs hdr]
        exact hs results hok

/-- C10: for every query and every `top_k`, each vector-store similarity
search in the trace is limited to `k = top_k` and each in-memory-retriever
run uses the same `top_k`; and whenever those collaborators honor their
bound, the document set handed to the prompt builder (on either path)
contains at most `top_k` documents. -/
theorem at_most_top_k_documents (env : Env) (self : Pipeline) (query : String)
    (top_k : Nat) (lang : String) (content_key : Option String)
    (meta_keys : List String) (esf : String) (wk : Option WikidataKwargs)
    (hs : ∀ rs, env.similarity_search_with_relevance_scores query top_k =
      Except.ok rs → rs.length ≤ top_k)
    (hr : ∀ corpus qe, (env.retriever_run corpus qe top_k).length ≤ top_k) :
    (∀ gs q k, Event.similaritySearch gs q k ∈
        (process_query env self query top_k lang content_key meta_keys esf
          wk).2.1 → k = top_k) ∧
    (∀ corpus qe k, Event.retrieverRun corpus qe k ∈
        (process_query env self query top_k lang content_key meta_keys esf
          wk).2.1 → k = top_k) ∧
    (∀ ds, Event.promptBuilderRun lang query ds ∈
        (process_query env self query top_k lang content_key meta_keys esf
          wk).2.1 → ds.length ≤ top_k) := by
  refine ⟨?_, ?_, ?_⟩
  · intro gs q k hmem
    exact (search_event_args env self query top_k lang content_key meta_keys
      esf wk gs q k hmem).2.2
  · intro corpus qe k hmem
    exact retrieverRun_event_top_k env self query top_k lang content_key
      meta_keys esf wk corpus qe k hmem
  · intro ds hmem
    rcases hret : retrieve env self query top_k lang content_key meta_keys esf
      wk with ⟨_ | docs, ev⟩
    · exact absurd hmem (fun hm => no_prompt_of_retrieve_none env self query
        top_k lang content_key meta_keys esf wk ev lang query ds hret hm)
    · obtain ⟨-, -, hds⟩ := prompt_event_args env self query top_k lang
        content_key meta_keys esf wk docs ev lang query ds hret hmem
      rw [hds]
      exact retrieve_some_length_le env self query top_k lang content_key
        meta_keys esf wk docs ev hs hr hret

/-! ### Witnesses: the theorems above applied at the concrete collaborators -/

/-- The fallback ordering theorem evaluated at `env_empty`: the trace of the
run is the nine collaborator calls in the stated order. -/
theorem fallback_order_and_embedding_model_witness :
    (process_query env_empty pipe0 "q" 2 "en" none [] "cosine" none).2.1 =
      [Event.similaritySearch 0 "q" 2,
       Event.embedderRun (make_embedder "svalabs/german-gpl-adapted-covid"
         "cpu") [{ content := "q" }],
       Event.fetchStatements "q" "en" (some "serapi-key")
         { timeout := 10, n_cores := 4, verbose := false,
           api_url := "https://www.wikidata.org/w",
           wikidata_base := "\"wikidata.org\"", return_list := true },
       Event.setupDocumentStream [[("content", "Douglas Adams is a writer.")]]
         none [] (make_embedder "svalabs/german-gpl-adapted-covid" "cpu")
         "cosine" "cpu",
       Event.embedderRun (make_embedder "svalabs/german-gpl-adapted-covid"
         "cpu") [{ content := "Douglas Adams is a writer." }],
       Event.retrieverRun
         [{ content := "Douglas Adams is a writer.", embedding := some [26] }]
         [1] 2,
       Event.promptBuilderRun "en" "q"
         [{ content := "Douglas Adams is a writer.", embedding := some [26] }],
       Event.llmRun [⟨"system", "system prompt for en"⟩,
         ⟨"user", "user prompt en q"⟩],
       Event.answerBuilderRun "q"
         [{ text := "an answer", meta := [("model", "llm")] }]
         [{ content := "Douglas Adams is a writer.",
            embedding := some [26] }]] :=
  (fallback_order_and_embedding_model env_empty pipe0 "q" 2 "en" none []
    "cosine" none { content := "q", embedding := some [1] } [1] rfl rfl rfl
    rfl).1

/-- The primary-path theorem evaluated at `env_primary`. -/
theorem primary_docs_scored_and_tagged_witness :
    primary_retrieve env_primary pipe0 "q" 2 =
      ([primary_doc1], [Event.similaritySearch 0 "q" 2]) :=
  (primary_docs_scored_and_tagged env_primary pipe0 "q" 2 "en" none [] "cosine"
    none [(lcdoc1, 9)] [primary_doc1] rfl rfl).1

/-- The answer theorem evaluated at `env_primary`. -/
theorem first_reply_is_final_answer_witness :
    (process_query env_primary pipe0 "q" 2 "en" none [] "cosine" none).1 =
      some { data := "an answer", query := "q", documents := [primary_doc1],
             meta := [("model", "llm")] } :=
  (first_reply_is_final_answer env_primary pipe0 "q" 2 "en" none [] "cosine"
    none [primary_doc1] [Event.similaritySearch 0 "q" 2]
    { text := "an answer", meta := [("model", "llm")] } [] rfl rfl).1

/-- The prompt theorem evaluated at `env_primary`. -/
theorem prompt_from_language_question_and_docs_witness :
    Event.promptBuilderRun "en" "q" [primary_doc1] ∈
      (process_query env_primary pipe0 "q" 2 "en" none [] "cosine" none).2.1 :=
  (prompt_from_language_question_and_docs env_primary pipe0 "q" 2 "en" none []
    "cosine" none [primary_doc1] [Event.similaritySearch 0 "q" 2] rfl).1

/-- The single-path theorem evaluated at `env_empty`. -/
theorem exactly_one_retrieval_path_witness :
    ((process_query env_empty pipe0 "q" 2 "en" none [] "cosine"
      none).2.1.filter Event.isFetch).length ≤ 1 :=
  (exactly_one_retrieval_path env_empty pipe0 "q" 2 "en" none [] "cosine"
    none).1

/-- The error-handling theorem evaluated at `env_error`. -/
theorem primary_error_caught_witness :
    (primary_retrieve env_error pipe0 "q" 2).1 = [] :=
  (primary_error_caught env_error pipe0 "q" 2 "en" none [] "cosine" none
    "timeout" rfl).1

/-- The annotation theorem evaluated at `env_primary`. -/
theorem answer_docs_eq_prompt_docs_witness :
    ({ data := "an answer", query := "q", documents := [primary_doc1],
       meta := [("model", "llm")] } : GeneratedAnswer).documents =
      [primary_doc1] :=
  (answer_docs_eq_prompt_docs env_primary pipe0 "q" 2 "en" none [] "cosine"
    none [primary_doc1] [Event.similaritySearch 0 "q" 2]
    { data := "an answer", query := "q", documents := [primary_doc1],
      meta := [("model", "llm")] } rfl rfl).1

/-- The bound theorem evaluated at `env_primary`: the document list handed to
the prompt builder has at most `top_k = 2` entries. -/
theorem at_most_top_k_documents_witness :
    ([primary_doc1] : List Document).length ≤ 2 :=
  (at_most_top_k_documents env_primary pipe0 "q" 2 "en" none [] "cosine" none
    (by intro rs h; injection h with h1; subst h1; decide)
    (by intro corpus qe; exact List.length_take_le 2 corpus)).2.2
    [primary_doc1] (by decide)

end WikidataChat
